import Mathlib

/-!
# gosugar: session lifecycle of `session.go`

A shallow embedding of `session.go` (package `gosugar`): the session record,
the generic JSON call `CallJson`, the two OAuth2 grant exchanges `Connect`
and `Refresh`, the metadata loader `loadInfo` and the query helper `RunQuery`.

Conventions of the embedding.

* A Go method on `*Session` becomes a function that takes the session and
  returns the updated session.  The network is made explicit: every function
  also takes the list of requests dispatched so far (`Log`) and returns the
  extended list, and the remote side is a `Transport`, a function from the
  requests seen so far and the current request to a response.
* The Go `error` result is an `Option String` (`none` is `nil`), carrying the
  error text.
* `CallJson`, `Refresh` and `loadInfo` call each other; the recursion is
  bounded by a fuel argument, one unit per function entry.  `Run.outOfFuel`
  reports the requests dispatched before the fuel ran out.
* `encoding/json`, `net/http` and `mapstructure` are not part of the
  repository: what the code needs of them is the record `Lib`.
* Go maps are association lists and slices are lists; a nil map or slice is
  the empty list.
-/

namespace Gosugar

/-! ## Data model -/

/-- Go `float64`, kept as its IEEE-754 bit pattern. -/
structure Float64 where
  bits : Nat
deriving DecidableEq

/-- Go `map[string]T` as an association list (first binding of a key wins). -/
abbrev GoMap (α : Type) := List (String × α)

/-- A decoded JSON document, the dynamic content of a Go `interface{}` after
`json.Unmarshal`; `null` is the nil interface. -/
inductive Json where
  | null
  | bool (b : Bool)
  | number (n : Float64)
  | string (s : String)
  | array (xs : List Json)
  | object (kvs : List (String × Json))

/-- Go `map[string]interface{}`. -/
abbrev JObject := List (String × Json)

/-- Sugar authentication structure for oauth2 keys. -/
structure AuthRequest where
  GrantType : String
  ClientId : String
  ClientSecret : String
  UserName : String
  Password : String
  Platform : String
deriving DecidableEq

structure RefreshRequest where
  GrantType : String
  RefreshToken : String
  ClientId : String
  ClientSecret : String
deriving DecidableEq

/-- Sugar authentication response. -/
structure AuthResponse where
  AccessToken : String
  ExpiresIn : Int
  TokenType : String
  Scope : String
  RefreshToken : String
  RefreshExpiresIn : Int
  DownloadToken : String
deriving DecidableEq

/-- The zero value of `AuthResponse` (`var res AuthResponse`). -/
def AuthResponse.zero : AuthResponse := ⟨"", 0, "", "", "", 0, ""⟩

structure SessionTeam where
  ID : String
  Name : String
deriving DecidableEq

structure SessionACLEntry where
  Access : String
  Admin : String
  Delete : String
  Developer : String
  Edit : String
  Export : String
  Fields : GoMap (GoMap String)
  Hash : String
  Import : String
  List : String
  MassUpdate : String
  View : String
deriving DecidableEq

structure SessionOrganization where
  IsManager : Bool
  IsTopLevelManager : Bool
  ReportsToID : String
  ReportsToName : String
deriving DecidableEq

structure SessionAddress where
  AddressStreet : String
  AddressCity : String
  AddressCountry : String
  AddressPostalCode : String
deriving DecidableEq

structure SessionGlobalPreferences where
  CurrencyID : Int
  CurrencyISO : String
  CurrencyName : String
  CurrencyRate : Float64
  CurrencySymbol : String
  DateFormat : String
  DecimalPrecision : Int
  DecimalSeparator : String
  DefaultTeams : List (GoMap String)
  EmailClientPreference : GoMap String
  FirstDayOfWeek : Int
  Language : String
  LocaleNameDefaultFormat : String
  NumberGroupingSeparator : String
  ShowPreferredCurrency : Bool
  SignatureDefault : List String
  SignaturePrepend : Bool
  Sweetspot : String
  TimeFormat : String
  Timezone : String
  TzOffsetDisplay : String
  TzOffsetSeconds : Float64

structure SessionUserPreferences where
  CalendarPublishKey : String
  CurrencyDefaultSignificantDigits : Int
  CurrencyID : Int
  CurrencyShowPreferred : Bool
  DateFormat : String
  DecimalSeparator : String
  EmailLinkType : String
  EmailReminderTime : Int
  EmailShowCounts : Bool
  ExportCharsetDefault : String
  ExportDelimeter : String
  Fdow : String
  HideTabs : List String
  LocaleDefaultNameFormat : String
  Lockout : String
  LoginExpiration : String
  LoginFailed : String
  MailSMTPAuthReq : String
  MailSMTPPass : String
  MailSMTPSSL : Bool
  MailSMTPServer : String
  MailSMTPUser : String
  MailmergeOn : String
  MaxTabs : Int
  ModuleFavicon : String
  NavigationParadigm : String
  NoOpps : String
  NumberGroupSeparator : String
  ReminderTime : Int
  RemoveTabs : List String
  SubpanelTabs : String
  SugarPDFDataFontName : String
  SugarPDFDataFontSize : String
  SugarPDFMainFontName : String
  SugarPDFMainFontSize : String
  SwapLastViewed : String
  SwapShortcuts : String
  TimeFormat : String
  Timezone : String
  UT : String
  UseRealNames : String
  UserTheme : String

structure SessionInfo where
  ACL : GoMap SessionACLEntry
  Address : SessionAddress
  FullName : String
  GlobalPreferences : SessionGlobalPreferences
  Hash : String
  Id : String
  IsPasswordExpired : Bool
  ModuleList : List String
  MyTeams : List SessionTeam
  Organization : SessionOrganization
  PasswordExpiredMessage : String
  Picture : String
  Roles : List String
  SessionType : String
  ShowWizard : String
  UserPreferences : SessionUserPreferences
  Username : String

/-- The zero value of `SessionGlobalPreferences`. -/
def SessionGlobalPreferences.zero : SessionGlobalPreferences :=
  { CurrencyID := 0, CurrencyISO := "", CurrencyName := "", CurrencyRate := ⟨0⟩,
    CurrencySymbol := "", DateFormat := "", DecimalPrecision := 0, DecimalSeparator := "",
    DefaultTeams := [], EmailClientPreference := [], FirstDayOfWeek := 0, Language := "",
    LocaleNameDefaultFormat := "", NumberGroupingSeparator := "",
    ShowPreferredCurrency := false, SignatureDefault := [], SignaturePrepend := false,
    Sweetspot := "", TimeFormat := "", Timezone := "", TzOffsetDisplay := "",
    TzOffsetSeconds := ⟨0⟩ }

/-- The zero value of `SessionUserPreferences`. -/
def SessionUserPreferences.zero : SessionUserPreferences :=
  { CalendarPublishKey := "", CurrencyDefaultSignificantDigits := 0, CurrencyID := 0,
    CurrencyShowPreferred := false, DateFormat := "", DecimalSeparator := "",
    EmailLinkType := "", EmailReminderTime := 0, EmailShowCounts := false,
    ExportCharsetDefault := "", ExportDelimeter := "", Fdow := "", HideTabs := [],
    LocaleDefaultNameFormat := "", Lockout := "", LoginExpiration := "", LoginFailed := "",
    MailSMTPAuthReq := "", MailSMTPPass := "", MailSMTPSSL := false, MailSMTPServer := "",
    MailSMTPUser := "", MailmergeOn := "", MaxTabs := 0, ModuleFavicon := "",
    NavigationParadigm := "", NoOpps := "", NumberGroupSeparator := "", ReminderTime := 0,
    RemoveTabs := [], SubpanelTabs := "", SugarPDFDataFontName := "",
    SugarPDFDataFontSize := "", SugarPDFMainFontName := "", SugarPDFMainFontSize := "",
    SwapLastViewed := "", SwapShortcuts := "", TimeFormat := "", Timezone := "", UT := "",
    UseRealNames := "", UserTheme := "" }

/-- The zero value of `SessionInfo`. -/
def SessionInfo.zero : SessionInfo :=
  { ACL := [], Address := ⟨"", "", "", ""⟩, FullName := "",
    GlobalPreferences := SessionGlobalPreferences.zero, Hash := "", Id := "",
    IsPasswordExpired := false, ModuleList := [], MyTeams := [],
    Organization := ⟨false, false, "", ""⟩, PasswordExpiredMessage := "", Picture := "",
    Roles := [], SessionType := "", ShowWizard := "",
    UserPreferences := SessionUserPreferences.zero, Username := "" }

/-- The constant `service`. -/
def service : String := "/rest/v10"

structure Session where
  AccessToken : String
  RefreshToken : String
  Url : String
  Info : SessionInfo

/-- Modelled from the spec: the type `Query` is declared outside `session.go`;
`RunQuery` reads its `Module` and `Method` and hands the whole value to
`json.Marshal`.  The filter and body fields are an opaque payload. -/
structure Query where
  Module : String
  Method : String
  Payload : Json

/-! ## The environment: transport and libraries -/

/-- What `CallJson` hands to `http.NewRequest` and `client.Do`: method, URL,
the headers it sets, and the marshalled body (empty when `req == nil`). -/
structure Request where
  Method : String
  Url : String
  Header : List (String × String)
  Body : String
deriving DecidableEq

/-- What `client.Do` returns: an error, or a response with `StatusCode`,
`Status` and the bytes `ioutil.ReadAll(rp.Body)` yields. -/
inductive Response where
  | failure (err : String)
  | http (StatusCode : Nat) (Status : String) (Body : String)
deriving DecidableEq

/-- The requests dispatched so far, oldest first. -/
abbrev Log := List Request

/-- The remote side: the response to a request, given the requests dispatched
before it.  Any sequence of responses is of this form. -/
abbrev Transport := Log → Request → Response

/-- The values `CallJson` receives as `req`. -/
inductive ReqObj where
  | auth (r : AuthRequest)
  | refresh (r : RefreshRequest)
  | query (q : Query)

/-- The library functions `session.go` calls.  A decoder takes the current
value of its target and returns the value the target holds afterwards
together with the error. -/
structure Lib where
  /-- Whether `http.NewRequest(method, url, _)` returns a request. -/
  newRequestOk : String → String → Bool
  /-- The function `json.Marshal`. -/
  marshal : ReqObj → Except String String
  /-- The function `json.Unmarshal` into `*AuthResponse`. -/
  unmarshalAuth : String → AuthResponse → AuthResponse × Option String
  /-- The function `json.Unmarshal` into `*map[string]interface{}`. -/
  unmarshalMap : String → JObject → JObject × Option String
  /-- The function `json.Unmarshal` into `*interface{}`. -/
  unmarshalAny : String → Json → Json × Option String
  /-- The function `mapstructure.WeakDecode` into `*SessionInfo`. -/
  weakDecodeInfo : JObject → SessionInfo → SessionInfo × Option String
  /-- The function `mapstructure.WeakDecode` into `*SessionUserPreferences`. -/
  weakDecodePrefs : JObject → SessionUserPreferences → SessionUserPreferences × Option String

/-- How a call ends: it returns, it dereferences the nil request that a
failed `http.NewRequest` leaves behind, or the fuel of the embedding runs out
(with the requests dispatched up to then). -/
inductive Run (α : Type) where
  | done (a : α)
  | panic
  | outOfFuel (log : Log)

/-! ## The functions of `session.go` -/

/-- The request `CallJson` builds: `s.Url + service + srv`, the content type,
and the `oauth-token` header when an access token is present. -/
def mkRequest (s : Session) (method srv body : String) : Request :=
  { Method := method
    Url := s.Url ++ service ++ srv
    Header := ("Content-Type", "application/json") ::
      (if s.AccessToken ≠ "" then [("oauth-token", s.AccessToken)] else [])
    Body := body }

/-- The body `CallJson` sends: nothing for `req == nil`, else `json.Marshal(req)`. -/
def marshalReq (lib : Lib) : Option ReqObj → Except String String
  | none => .ok ""
  | some r => lib.marshal r

/-- The tail of `CallJson` from the test `rp.StatusCode != 200` on. -/
def CallJson.finish {α : Type} (s : Session) (log : Log) (code : Nat) (status body : String)
    (dec : String → α → α × Option String) (resp : α) :
    Run (Session × Log × α × Option String) :=
  if code ≠ 200 then
    .done (s, log, resp, some ("non OK response: " ++ status ++ "\nBody: " ++ body))
  else
    .done (s, log, (dec body resp).1, (dec body resp).2)

/-- The method `sanityModule`. -/
def sanityModule (s : Session) (m : String) : Bool :=
  s.Info.ModuleList.any (fun v => v == m)

mutual

/-- The method `CallJson`; `dec` is `json.Unmarshal` at the type of `resp`. -/
def CallJson (lib : Lib) (net : Transport) : Nat → (α : Type) → Session → Log → String →
    String → Option ReqObj → (String → α → α × Option String) → α →
    Run (Session × Log × α × Option String)
  | 0, _, _, log, _, _, _, _, _ => .outOfFuel log
  | n + 1, _, s, log, method, srv, req, dec, resp =>
    match marshalReq lib req with
    | .error e => .done (s, log, resp, some e)
    | .ok b =>
      if lib.newRequestOk method (s.Url ++ service ++ srv) = false then .panic
      else
        match net log (mkRequest s method srv b) with
        | .failure e => .done (s, log ++ [mkRequest s method srv b], resp, some e)
        | .http code status body =>
          if code = 401 then
            match Refresh lib net n s (log ++ [mkRequest s method srv b]) with
            | .done (s1, log1, some _) =>
              .done (s1, log1, resp, some ("non OK response: " ++ status))
            | .done (s1, log1, none) => CallJson.finish s1 log1 code status body dec resp
            | .panic => .panic
            | .outOfFuel l => .outOfFuel l
          else
            CallJson.finish s (log ++ [mkRequest s method srv b]) code status body dec resp

/-- The method `Refresh`. -/
def Refresh (lib : Lib) (net : Transport) : Nat → Session → Log →
    Run (Session × Log × Option String)
  | 0, _, log => .outOfFuel log
  | n + 1, s, log =>
    if s.RefreshToken = "" then .done (s, log, some "No refresh token available")
    else
      match CallJson lib net n AuthResponse s log "POST" " /oauth2/token"
          (some (.refresh ⟨"refresh_token", s.RefreshToken, "sugar", ""⟩))
          lib.unmarshalAuth AuthResponse.zero with
      | .done (s1, log1, _, some e) =>
        .done ({ s1 with RefreshToken := "", AccessToken := "" }, log1, some e)
      | .done (s1, log1, res, none) =>
        loadInfo lib net n
          { s1 with AccessToken := res.AccessToken, RefreshToken := res.RefreshToken } log1
      | .panic => .panic
      | .outOfFuel l => .outOfFuel l

/-- The method `loadInfo`. -/
def loadInfo (lib : Lib) (net : Transport) : Nat → Session → Log →
    Run (Session × Log × Option String)
  | 0, _, log => .outOfFuel log
  | n + 1, s, log =>
    match CallJson lib net n JObject s log "GET" "/me" none lib.unmarshalMap [] with
    | .done (s1, log1, _, some e) => .done (s1, log1, some e)
    | .done (s1, log1, resp, none) =>
      match resp.lookup "current_user" with
      | some (.object cu) =>
        match lib.weakDecodeInfo cu s1.Info with
        | (info, some e) => .done ({ s1 with Info := info }, log1, some e)
        | (info, none) =>
          match CallJson lib net n JObject { s1 with Info := info } log1 "GET"
              "/me/preferences" none lib.unmarshalMap cu with
          | .done (s2, log2, _, some e) => .done (s2, log2, some e)
          | .done (s2, log2, resp2, none) =>
            match lib.weakDecodePrefs resp2 s2.Info.UserPreferences with
            | (p, some e) =>
              .done ({ s2 with Info := { s2.Info with UserPreferences := p } }, log2, some e)
            | (p, none) =>
              let s3 : Session := { s2 with Info := { s2.Info with UserPreferences := p } }
              if sanityModule s3 "Users" then .done (s3, log2, none)
              else
                .done ({ s3 with
                  Info := { s3.Info with ModuleList := s3.Info.ModuleList ++ ["Users"] } },
                  log2, none)
          | .panic => .panic
          | .outOfFuel l => .outOfFuel l
      | _ => .done (s1, log1, some "Couly not locate current_user json element.")
    | .panic => .panic
    | .outOfFuel l => .outOfFuel l

end

/-- The method `Connect`. -/
def Connect (lib : Lib) (net : Transport) (fuel : Nat) (s : Session) (log : Log)
    (username password : String) : Run (Session × Log × Option String) :=
  match CallJson lib net fuel AuthResponse s log "POST" "/oauth2/token"
      (some (.auth ⟨"password", "sugar", "", username, password, "base"⟩))
      lib.unmarshalAuth AuthResponse.zero with
  | .done (s1, log1, _, some e) => .done (s1, log1, some e)
  | .done (s1, log1, res, none) =>
    loadInfo lib net fuel
      { s1 with AccessToken := res.AccessToken, RefreshToken := res.RefreshToken } log1
  | .panic => .panic
  | .outOfFuel l => .outOfFuel l

/-- The method `RunQuery`; the first component of the result is the returned
`interface{}` (`Json.null` for `nil`). -/
def RunQuery (lib : Lib) (net : Transport) (fuel : Nat) (s : Session) (log : Log)
    (q : Query) : Run (Session × Log × Json × Option String) :=
  if sanityModule s q.Module then
    match CallJson lib net fuel Json s log q.Method ("/" ++ q.Module ++ "/filter")
        (some (.query q)) lib.unmarshalAny Json.null with
    | .done (s1, log1, _, some e) => .done (s1, log1, Json.null, some e)
    | .done (s1, log1, resp, none) => .done (s1, log1, resp, none)
    | .panic => .panic
    | .outOfFuel l => .outOfFuel l
  else
    .done (s, log, Json.null,
      some ("Module " ++ q.Module ++ " is not available for quering"))

/-- The function `NewSession`. -/
def NewSession (urlStr : String) : Session :=
  { AccessToken := "", RefreshToken := "", Url := urlStr, Info := SessionInfo.zero }

/-! ## Notions used to state the properties -/

/-- The body a response carries, if the transport produced a response. -/
def Response.payload : Response → Option String
  | .failure _ => none
  | .http _ _ body => some body

/-- The two decodes of `loadInfo` in sequence (`WeakDecode(resp, &s.Info)`, then
`WeakDecode(resp, &s.Info.UserPreferences)`), as a function on the session
info: `cu` is the `current_user` object and `prefs` the map handed to the
second decode. -/
def decodeBoth (lib : Lib) (cu prefs : JObject) (x : SessionInfo) : SessionInfo :=
  { (lib.weakDecodeInfo cu x).1 with
    UserPreferences :=
      (lib.weakDecodePrefs prefs (lib.weakDecodeInfo cu x).1.UserPreferences).1 }

/-- The patch at the end of `loadInfo`, on the info: "Users" is appended to
the module list unless the list has it. -/
def withUsers (x : SessionInfo) : SessionInfo :=
  { x with
    ModuleList := if "Users" ∈ x.ModuleList then x.ModuleList else x.ModuleList ++ ["Users"] }

/-- Decoding is stable under repetition: decoding the same two maps into an
info that was produced by decoding them changes nothing, and when the module
list of such an info has been extended at its end, decoding again either keeps
the extension (the slice is reused element by element) or gives the decoded
info back (the slice is replaced). -/
def DecodeStable (lib : Lib) : Prop :=
  ∀ (cu prefs : JObject) (x : SessionInfo) (t : List String),
    decodeBoth lib cu prefs (decodeBoth lib cu prefs x) = decodeBoth lib cu prefs x ∧
    (decodeBoth lib cu prefs
        { decodeBoth lib cu prefs x with
          ModuleList := (decodeBoth lib cu prefs x).ModuleList ++ t } =
        { decodeBoth lib cu prefs x with
          ModuleList := (decodeBoth lib cu prefs x).ModuleList ++ t } ∨
      decodeBoth lib cu prefs
        { decodeBoth lib cu prefs x with
          ModuleList := (decodeBoth lib cu prefs x).ModuleList ++ t } =
        decodeBoth lib cu prefs x)

/-- The two tokens are both empty or both non-empty. -/
def TokensPaired (s : Session) : Prop :=
  (s.AccessToken = "" ∧ s.RefreshToken = "") ∨ (s.AccessToken ≠ "" ∧ s.RefreshToken ≠ "")

/-- The session states (with the requests dispatched to reach them) that a
client obtains from `NewSession` by calling the exported operations. -/
inductive Reachable (lib : Lib) (net : Transport) : Session → Log → Prop where
  | newSession (urlStr : String) : Reachable lib net (NewSession urlStr) []
  | connect {s s' : Session} {log log' : Log} {e : Option String} (fuel : Nat)
      (username password : String) :
      Reachable lib net s log →
      Connect lib net fuel s log username password = .done (s', log', e) →
      Reachable lib net s' log'
  | refresh {s s' : Session} {log log' : Log} {e : Option String} (fuel : Nat) :
      Reachable lib net s log →
      Refresh lib net fuel s log = .done (s', log', e) →
      Reachable lib net s' log'
  | callJson {α : Type} {s s' : Session} {log log' : Log} {e : Option String} {r : α}
      (fuel : Nat) (method srv : String) (req : Option ReqObj)
      (dec : String → α → α × Option String) (resp : α) :
      Reachable lib net s log →
      CallJson lib net fuel α s log method srv req dec resp = .done (s', log', r, e) →
      Reachable lib net s' log'
  | runQuery {s s' : Session} {log log' : Log} {e : Option String} {r : Json}
      (fuel : Nat) (q : Query) :
      Reachable lib net s log →
      RunQuery lib net fuel s log q = .done (s', log', r, e) →
      Reachable lib net s' log'

/-! ## A sample environment

Concrete libraries and servers on which the functions can be evaluated.  The
sample decoders cover the documents below; they follow `encoding/json` (an
object unmarshalled into a non-nil map is merged into it, keeping the
entries already there) and `mapstructure` (a key present in the input
overwrites its field, every other field keeps its value). -/

def sampleUrl : String := "https://crm.example"

/-- The document `{"access_token":"tok1","refresh_token":"ref1"}`. -/
def tokenDoc : String := "\x7b\"access_token\":\"tok1\",\"refresh_token\":\"ref1\"\x7d"

/-- The document `{"access_token":"tok2","refresh_token":"ref2"}`. -/
def tokenDoc2 : String := "\x7b\"access_token\":\"tok2\",\"refresh_token\":\"ref2\"\x7d"

/-- The document `{"access_token":"tok1"}`. -/
def accessOnlyDoc : String := "\x7b\"access_token\":\"tok1\"\x7d"

/-- The document
`{"current_user":{"id":"1","module_list":["Accounts","Contacts"],"timezone":"UTC"}}`. -/
def meDoc : String :=
  "\x7b\"current_user\":\x7b\"id\":\"1\",\"module_list\":[\"Accounts\",\"Contacts\"]," ++
    "\"timezone\":\"UTC\"\x7d\x7d"

/-- The document `meDoc` with `"timezone":"Europe/Paris"`. -/
def meDocParis : String :=
  "\x7b\"current_user\":\x7b\"id\":\"1\",\"module_list\":[\"Accounts\",\"Contacts\"]," ++
    "\"timezone\":\"Europe/Paris\"\x7d\x7d"

/-- The document `{"datef":"m/d/Y"}`. -/
def prefsDoc : String := "\x7b\"datef\":\"m/d/Y\"\x7d"

/-- The JSON values of the sample documents; any other text counts as
malformed. -/
def sampleParse (body : String) : Option Json :=
  if body = tokenDoc then
    some (.object [("access_token", .string "tok1"), ("refresh_token", .string "ref1")])
  else if body = tokenDoc2 then
    some (.object [("access_token", .string "tok2"), ("refresh_token", .string "ref2")])
  else if body = accessOnlyDoc then some (.object [("access_token", .string "tok1")])
  else if body = meDoc then
    some (.object [("current_user", .object [("id", .string "1"),
      ("module_list", .array [.string "Accounts", .string "Contacts"]),
      ("timezone", .string "UTC")])])
  else if body = meDocParis then
    some (.object [("current_user", .object [("id", .string "1"),
      ("module_list", .array [.string "Accounts", .string "Contacts"]),
      ("timezone", .string "Europe/Paris")])])
  else if body = prefsDoc then some (.object [("datef", .string "m/d/Y")])
  else if body = "null" then some .null
  else none

/-- Assignment `m[k] = v` on a map. -/
def setKey (m : JObject) (k : String) (v : Json) : JObject :=
  if m.any (fun kv => kv.1 == k) then m.map (fun kv => if kv.1 == k then (k, v) else kv)
  else m ++ [(k, v)]

/-- An object unmarshalled into an existing map: each member is assigned,
the other entries of the map stay. -/
def mergeObject (target kvs : JObject) : JObject :=
  kvs.foldl (fun m kv => setKey m kv.1 kv.2) target

/-- The strings of a JSON array of strings. -/
def jsonStrings : List Json → Option (List String)
  | [] => some []
  | .string s :: rest => (jsonStrings rest).map (fun l => s :: l)
  | _ :: _ => none

/-- A string field decoded from the value under its key. -/
def decodeStringField (v : Option Json) (old : String) : String × Option String :=
  match v with
  | none => (old, none)
  | some .null => (old, none)
  | some (.string s) => (s, none)
  | some _ => (old, some "value kind outside the sample")

/-- A `[]string` field decoded from the value under its key: the elements
are written over the slice the field holds, which is grown when too short. -/
def decodeStringsField (v : Option Json) (old : List String) :
    List String × Option String :=
  match v with
  | none => (old, none)
  | some .null => (old, none)
  | some (.array xs) =>
    match jsonStrings xs with
    | some l => (l ++ old.drop l.length, none)
    | none => (old, some "element kind outside the sample")
  | some _ => (old, some "value kind outside the sample")

/-- The decode into `*SessionInfo`, for the members `id` and `module_list`. -/
def sampleWeakDecodeInfo (m : JObject) (x : SessionInfo) : SessionInfo × Option String :=
  ({ x with
      Id := (decodeStringField (m.lookup "id") x.Id).1
      ModuleList := (decodeStringsField (m.lookup "module_list") x.ModuleList).1 },
    ((decodeStringField (m.lookup "id") x.Id).2).orElse
      (fun _ => (decodeStringsField (m.lookup "module_list") x.ModuleList).2))

/-- The decode into `*SessionUserPreferences`, for the members `datef` and
`timezone`. -/
def sampleWeakDecodePrefs (m : JObject) (x : SessionUserPreferences) :
    SessionUserPreferences × Option String :=
  ({ x with
      DateFormat := (decodeStringField (m.lookup "datef") x.DateFormat).1
      Timezone := (decodeStringField (m.lookup "timezone") x.Timezone).1 },
    ((decodeStringField (m.lookup "datef") x.DateFormat).2).orElse
      (fun _ => (decodeStringField (m.lookup "timezone") x.Timezone).2))

/-- The unmarshalling into `*AuthResponse`, for the members `access_token`
and `refresh_token`: a member that is present sets its field, the other
fields keep their values. -/
def sampleUnmarshalAuth (body : String) (t : AuthResponse) : AuthResponse × Option String :=
  match sampleParse body with
  | some (.object kvs) =>
    ({ t with
        AccessToken := (decodeStringField (kvs.lookup "access_token") t.AccessToken).1
        RefreshToken := (decodeStringField (kvs.lookup "refresh_token") t.RefreshToken).1 },
      ((decodeStringField (kvs.lookup "access_token") t.AccessToken).2).orElse
        (fun _ => (decodeStringField (kvs.lookup "refresh_token") t.RefreshToken).2))
  | some .null => (t, none)
  | some _ => (t, some "json: cannot unmarshal into Go value of type gosugar.AuthResponse")
  | none => (t, some "document outside the sample")

/-- The unmarshalling into `*map[string]interface{}`. -/
def sampleUnmarshalMap (body : String) (t : JObject) : JObject × Option String :=
  match sampleParse body with
  | some (.object kvs) => (mergeObject t kvs, none)
  | some .null => ([], none)
  | some _ => (t, some "json: cannot unmarshal into Go value of type map[string]interface {}")
  | none => (t, some "document outside the sample")

/-- The rendering of a password-grant request, for field values that need no
escaping. -/
def authJson (a : AuthRequest) : String :=
  "\x7b\"grant_type\":\"" ++ a.GrantType ++ "\",\"client_id\":\"" ++ a.ClientId ++
    "\",\"client_secret\":\"" ++ a.ClientSecret ++ "\",\"username\":\"" ++ a.UserName ++
    "\",\"password\":\"" ++ a.Password ++ "\",\"platform\":\"" ++ a.Platform ++ "\"\x7d"

/-- The rendering of a refresh-grant request, for field values that need no
escaping. -/
def refreshJson (a : RefreshRequest) : String :=
  "\x7b\"grant_type\":\"" ++ a.GrantType ++ "\",\"refresh_token\":\"" ++ a.RefreshToken ++
    "\",\"client_id\":\"" ++ a.ClientId ++ "\",\"client_secret\":\"" ++ a.ClientSecret ++
    "\"\x7d"

/-- The rendering of a query by its module and method; the payload of a
query is not part of the sample. -/
def queryJson (q : Query) : String :=
  "\x7b\"module\":\"" ++ q.Module ++ "\",\"method\":\"" ++ q.Method ++ "\"\x7d"

/-- The sample libraries: every request can be built. -/
def sampleLib : Lib :=
  { newRequestOk := fun _ _ => true
    marshal := fun r =>
      match r with
      | .auth a => .ok (authJson a)
      | .refresh a => .ok (refreshJson a)
      | .query q => .ok (queryJson q)
    unmarshalAuth := sampleUnmarshalAuth
    unmarshalMap := sampleUnmarshalMap
    unmarshalAny := fun body t =>
      match sampleParse body with
      | some v => (v, none)
      | none => (t, some "document outside the sample")
    weakDecodeInfo := sampleWeakDecodeInfo
    weakDecodePrefs := sampleWeakDecodePrefs }

/-- A server that answers both token URLs with `token`, `/me` with `me`,
`/me/preferences` with `prefsDoc` and anything else with 404. -/
def serverWith (token me : String) : Transport := fun _ rq =>
  if rq.Url = "https://crm.example/rest/v10/oauth2/token" then .http 200 "200 OK" token
  else if rq.Url = "https://crm.example/rest/v10 /oauth2/token" then .http 200 "200 OK" token
  else if rq.Url = "https://crm.example/rest/v10/me" then .http 200 "200 OK" me
  else if rq.Url = "https://crm.example/rest/v10/me/preferences" then
    .http 200 "200 OK" prefsDoc
  else .http 404 "404 Not Found" ""

def sampleServer : Transport := serverWith tokenDoc meDoc

/-- A server that answers the first request it ever sees with 401 and then
behaves like the sample server with fresh tokens. -/
def expiredOnceServer : Transport := fun log rq =>
  if log.isEmpty then .http 401 "401 Unauthorized" "" else serverWith tokenDoc2 meDoc log rq

/-- A server that answers every request with 401. -/
def alwaysUnauthorized : Transport := fun _ _ => .http 401 "401 Unauthorized" ""

/-- A server that answers the first request with 401 and is unreachable
afterwards. -/
def unauthorizedThenDown : Transport := fun log _ =>
  if log.isEmpty then .http 401 "401 Unauthorized" "" else .failure "connection refused"

/-- A server that grants tokens and fails every `GET`. -/
def grantOnlyServer : Transport := fun _ rq =>
  if rq.Method = "POST" then .http 200 "200 OK" tokenDoc2
  else .http 500 "500 Internal Server Error" ""

/-- A server that is unreachable. -/
def downServer : Transport := fun _ _ => .failure "connection refused"

/-- A session that holds a token pair. -/
def liveSession : Session :=
  { AccessToken := "tok1", RefreshToken := "ref1", Url := sampleUrl, Info := SessionInfo.zero }

/-- The password-grant request of the sample runs, as sent by `s`. -/
def grantRequest (s : Session) (password : String) : Request :=
  mkRequest s "POST" "/oauth2/token"
    (authJson ⟨"password", "sugar", "", "sally", password, "base"⟩)

/-- The refresh-grant request of `liveSession`. -/
def refreshRequest : Request :=
  { Method := "POST"
    Url := "https://crm.example/rest/v10 /oauth2/token"
    Header := [("Content-Type", "application/json"), ("oauth-token", "tok1")]
    Body := refreshJson ⟨"refresh_token", "ref1", "sugar", ""⟩ }

/-- A `GET` request without body that carries the access token `tok`. -/
def getRequest (path tok : String) : Request :=
  { Method := "GET"
    Url := "https://crm.example/rest/v10" ++ path
    Header := [("Content-Type", "application/json"), ("oauth-token", tok)]
    Body := "" }

/-- The info the sample documents decode to on a fresh session, with the
time zone `tz`. -/
def sampleInfo (tz : String) : SessionInfo :=
  { SessionInfo.zero with
    Id := "1"
    ModuleList := ["Accounts", "Contacts", "Users"]
    UserPreferences :=
      { SessionUserPreferences.zero with DateFormat := "m/d/Y", Timezone := tz } }

/-! ## General facts about the calls -/

theorem sanityModule_iff (s : Session) (m : String) :
    sanityModule s m = true ↔ m ∈ s.Info.ModuleList := by
  simp [sanityModule]

theorem mkRequest_info (s : Session) (info : SessionInfo) (method srv body : String) :
    mkRequest { s with Info := info } method srv body = mkRequest s method srv body := rfl

/-- A `CallJson` that returns no error saw status 200, left the session
alone, dispatched one request and decoded the body. -/
theorem CallJson_ok {α : Type} {lib : Lib} {net : Transport} {fuel : Nat} {s : Session}
    {log : Log} {method srv : String} {req : Option ReqObj}
    {dec : String → α → α × Option String} {resp : α} {s' : Session} {log' : Log} {r : α}
    (h : CallJson lib net fuel α s log method srv req dec resp = .done (s', log', r, none)) :
    ∃ b status body, marshalReq lib req = .ok b ∧
      net log (mkRequest s method srv b) = .http 200 status body ∧
      s' = s ∧ log' = log ++ [mkRequest s method srv b] ∧ dec body resp = (r, none) := by
  cases fuel with
  | zero => simp [CallJson] at h
  | succ n =>
    rw [CallJson] at h
    split at h
    · simp at h
    · rename_i b hb
      split at h
      · simp at h
      · split at h
        · simp at h
        · rename_i code status body hnet
          split at h
          · split at h
            · simp at h
            · rename_i hc _ _ _ _
              subst hc
              simp [CallJson.finish] at h
            · simp at h
            · simp at h
          · by_cases h2 : code = 200
            · subst h2
              simp [CallJson.finish] at h
              obtain ⟨h1, h2, h3⟩ := h
              exact ⟨b, status, body, hb, hnet, h1.symm, h2.symm, h3⟩
            · simp [CallJson.finish, h2] at h

/-- A `loadInfo` that returns no error: both requests were answered with 200,
the two decodes succeeded, and the info is the decoded one with the module
list patched. -/
theorem loadInfo_ok {lib : Lib} {net : Transport} {fuel : Nat} {s : Session} {log : Log}
    {s' : Session} {log' : Log}
    (h : loadInfo lib net fuel s log = .done (s', log', none)) :
    ∃ st1 body1 m cu info st2 body2 prefs p,
      net log (mkRequest s "GET" "/me" "") = .http 200 st1 body1 ∧
      lib.unmarshalMap body1 [] = (m, none) ∧
      m.lookup "current_user" = some (.object cu) ∧
      lib.weakDecodeInfo cu s.Info = (info, none) ∧
      net (log ++ [mkRequest s "GET" "/me" ""]) (mkRequest s "GET" "/me/preferences" "") =
        .http 200 st2 body2 ∧
      lib.unmarshalMap body2 cu = (prefs, none) ∧
      lib.weakDecodePrefs prefs info.UserPreferences = (p, none) ∧
      log' = log ++ [mkRequest s "GET" "/me" "", mkRequest s "GET" "/me/preferences" ""] ∧
      s' = { s with Info := { info with
        UserPreferences := p
        ModuleList := if "Users" ∈ info.ModuleList then info.ModuleList
          else info.ModuleList ++ ["Users"] } } := by
  cases fuel with
  | zero => simp [loadInfo] at h
  | succ n =>
    rw [loadInfo] at h
    split at h
    · simp at h
    · rename_i s1 log1 resp hc1
      obtain ⟨b, st1, body1, hb, hnet1, rfl, rfl, hdec1⟩ := CallJson_ok hc1
      simp only [marshalReq, Except.ok.injEq] at hb
      subst hb
      split at h
      · rename_i cu hcu
        split at h
        · simp at h
        · rename_i info hinfo
          split at h
          · simp at h
          · rename_i s2 log2 resp2 hc2
            obtain ⟨b2, st2, body2, hb2, hnet2, rfl, rfl, hdec2⟩ := CallJson_ok hc2
            simp only [marshalReq, Except.ok.injEq] at hb2
            subst hb2
            split at h
            · simp at h
            · rename_i p hp
              refine ⟨st1, body1, resp, cu, info, st2, body2, resp2, p, hnet1, hdec1, hcu,
                hinfo, hnet2, hdec2, hp, ?_, ?_⟩
              · dsimp only at h
                split at h <;> simp at h <;> exact h.2.symm
              · dsimp only at h
                split at h
                · rename_i hs
                  rw [sanityModule_iff] at hs
                  simp at h
                  simp at hs
                  simp [← h.1, hs]
                · rename_i hs
                  rw [sanityModule_iff] at hs
                  simp at h
                  simp at hs
                  simp [← h.1, hs]
          · simp at h
          · simp at h
      · simp at h
    · simp at h
    · simp at h

/-- A `Refresh` that returns no error: a refresh token was stored, the grant
request was answered with 200 and a decodable body, and `loadInfo` then
succeeded on the session holding the granted pair. -/
theorem Refresh_ok {lib : Lib} {net : Transport} {fuel : Nat} {s : Session} {log : Log}
    {s' : Session} {log' : Log}
    (h : Refresh lib net fuel s log = .done (s', log', none)) :
    s.RefreshToken ≠ "" ∧
    ∃ n b st body res, fuel = n + 1 ∧
      lib.marshal (.refresh ⟨"refresh_token", s.RefreshToken, "sugar", ""⟩) = .ok b ∧
      net log (mkRequest s "POST" " /oauth2/token" b) = .http 200 st body ∧
      lib.unmarshalAuth body AuthResponse.zero = (res, none) ∧
      loadInfo lib net n
        { s with AccessToken := res.AccessToken, RefreshToken := res.RefreshToken }
        (log ++ [mkRequest s "POST" " /oauth2/token" b]) = .done (s', log', none) := by
  cases fuel with
  | zero => simp [Refresh] at h
  | succ n =>
    rw [Refresh] at h
    split at h
    · simp at h
    · rename_i hne
      refine ⟨hne, ?_⟩
      split at h
      · simp at h
      · rename_i s1 log1 res hc
        obtain ⟨b, st, body, hb, hnet, rfl, rfl, hdec⟩ := CallJson_ok hc
        exact ⟨n, b, st, body, res, rfl, hb, hnet, hdec, h⟩
      · simp at h
      · simp at h

/-- The call `CallJson` unfolded up to the response, when the request can be
built and dispatched. -/
theorem CallJson_dispatch {α : Type} (lib : Lib) (net : Transport) (n : Nat) (s : Session)
    (log : Log) (method srv : String) (req : Option ReqObj)
    (dec : String → α → α × Option String) (resp : α) (b : String)
    (hm : marshalReq lib req = .ok b)
    (hreq : lib.newRequestOk method (s.Url ++ service ++ srv) = true) :
    CallJson lib net (n + 1) α s log method srv req dec resp =
      match net log (mkRequest s method srv b) with
      | .failure e => .done (s, log ++ [mkRequest s method srv b], resp, some e)
      | .http code status body =>
        if code = 401 then
          match Refresh lib net n s (log ++ [mkRequest s method srv b]) with
          | .done (s1, log1, some _) =>
            .done (s1, log1, resp, some ("non OK response: " ++ status))
          | .done (s1, log1, none) => CallJson.finish s1 log1 code status body dec resp
          | .panic => .panic
          | .outOfFuel l => .outOfFuel l
        else
          CallJson.finish s (log ++ [mkRequest s method srv b]) code status body dec resp := by
  rw [CallJson]
  simp [hm, hreq]

theorem CallJson_finish_session {α : Type} {s : Session} {log : Log} {code : Nat}
    {status body : String} {dec : String → α → α × Option String} {resp : α}
    {s' : Session} {log' : Log} {r : α} {e : Option String}
    (h : CallJson.finish s log code status body dec resp = .done (s', log', r, e)) :
    s' = s := by
  unfold CallJson.finish at h
  split at h <;> simp at h <;> exact h.1.symm

/-- Pairing of the tokens is kept by `CallJson`, `Refresh` and `loadInfo`
when every 200 response that decodes as a token response carries a paired
token pair. -/
theorem tokensPaired_step (lib : Lib) (net : Transport)
    (hbal : ∀ log rq st body res, net log rq = .http 200 st body →
      lib.unmarshalAuth body AuthResponse.zero = (res, none) →
      (res.AccessToken = "" ∧ res.RefreshToken = "") ∨
        (res.AccessToken ≠ "" ∧ res.RefreshToken ≠ ""))
    (fuel : Nat) :
    (∀ (α : Type) (s : Session) (log : Log) (method srv : String) (req : Option ReqObj)
        (dec : String → α → α × Option String) (resp : α) (s' : Session) (log' : Log)
        (r : α) (e : Option String),
        TokensPaired s →
        CallJson lib net fuel α s log method srv req dec resp = .done (s', log', r, e) →
        TokensPaired s') ∧
    (∀ (s : Session) (log : Log) (s' : Session) (log' : Log) (e : Option String),
        TokensPaired s → Refresh lib net fuel s log = .done (s', log', e) →
        TokensPaired s') ∧
    (∀ (s : Session) (log : Log) (s' : Session) (log' : Log) (e : Option String),
        TokensPaired s → loadInfo lib net fuel s log = .done (s', log', e) →
        TokensPaired s') := by
  induction fuel with
  | zero =>
    refine ⟨?_, ?_, ?_⟩
    · intro α s log method srv req dec resp s' log' r e _ h
      simp [CallJson] at h
    · intro s log s' log' e _ h
      simp [Refresh] at h
    · intro s log s' log' e _ h
      simp [loadInfo] at h
  | succ n ih =>
    obtain ⟨ihC, ihR, ihL⟩ := ih
    refine ⟨?_, ?_, ?_⟩
    · intro α s log method srv req dec resp s' log' r e hs h
      rw [CallJson] at h
      split at h
      · simp at h
        rw [← h.1]
        exact hs
      · split at h
        · simp at h
        · split at h
          · simp at h
            rw [← h.1]
            exact hs
          · split at h
            · split at h
              · rename_i hr
                simp at h
                rw [← h.1]
                exact ihR _ _ _ _ _ hs hr
              · rename_i hr
                rw [CallJson_finish_session h]
                exact ihR _ _ _ _ _ hs hr
              · simp at h
              · simp at h
            · rw [CallJson_finish_session h]
              exact hs
    · intro s log s' log' e hs h
      rw [Refresh] at h
      split at h
      · simp at h
        rw [← h.1]
        exact hs
      · split at h
        · simp at h
          rw [← h.1]
          exact Or.inl ⟨rfl, rfl⟩
        · rename_i s1 log1 res hc
          obtain ⟨b, st, body, -, hnet, rfl, rfl, hdec⟩ := CallJson_ok hc
          exact ihL { s1 with AccessToken := res.AccessToken, RefreshToken := res.RefreshToken }
            _ _ _ _ (hbal _ _ _ _ _ hnet hdec) h
        · simp at h
        · simp at h
    · intro s log s' log' e hs h
      rw [loadInfo] at h
      split at h
      · rename_i hc
        simp at h
        rw [← h.1]
        exact ihC _ _ _ _ _ _ _ _ _ _ _ _ hs hc
      · rename_i s1 log1 resp hc
        have hs1 : TokensPaired s1 := ihC _ _ _ _ _ _ _ _ _ _ _ _ hs hc
        split at h
        · split at h
          · simp at h
            rw [← h.1]
            exact hs1
          · rename_i info _
            split at h
            · rename_i hc2
              simp at h
              rw [← h.1]
              exact ihC _ { s1 with Info := info } _ _ _ _ _ _ _ _ _ _ hs1 hc2
            · rename_i s2 log2 resp2 hc2
              have hs2 : TokensPaired s2 :=
                ihC _ { s1 with Info := info } _ _ _ _ _ _ _ _ _ _ hs1 hc2
              split at h
              · simp at h
                rw [← h.1]
                exact hs2
              · dsimp only at h
                split at h <;> simp at h <;> rw [← h.1] <;> exact hs2
            · simp at h
            · simp at h
        · simp at h
          rw [← h.1]
          exact hs1
      · simp at h
      · simp at h

/-- The patch absorbs a repeated decode: for `f` the decode and `y` a decoded
info, patching the decode of the patched `y` gives the patched `y`. -/
theorem withUsers_absorb (f : SessionInfo → SessionInfo) (y : SessionInfo)
    (hidem : f y = y)
    (htail : f { y with ModuleList := y.ModuleList ++ ["Users"] } =
        { y with ModuleList := y.ModuleList ++ ["Users"] } ∨
      f { y with ModuleList := y.ModuleList ++ ["Users"] } = y) :
    withUsers (f (withUsers y)) = withUsers y := by
  by_cases hu : "Users" ∈ y.ModuleList
  · have e : withUsers y = y := by simp [withUsers, hu]
    rw [e, hidem, e]
  · have e : withUsers y = { y with ModuleList := y.ModuleList ++ ["Users"] } := by
      simp [withUsers, hu]
    rw [e]
    rcases htail with h | h
    · rw [h]
      simp [withUsers]
    · rw [h, e]

/-- More fuel does not change what a call returns. -/
theorem fuel_mono (lib : Lib) (net : Transport) (n : Nat) :
    (∀ (α : Type) (s : Session) (log : Log) (method srv : String) (req : Option ReqObj)
        (dec : String → α → α × Option String) (resp : α)
        (r : Session × Log × α × Option String),
        CallJson lib net n α s log method srv req dec resp = .done r →
        CallJson lib net (n + 1) α s log method srv req dec resp = .done r) ∧
    (∀ (s : Session) (log : Log) (r : Session × Log × Option String),
        Refresh lib net n s log = .done r → Refresh lib net (n + 1) s log = .done r) ∧
    (∀ (s : Session) (log : Log) (r : Session × Log × Option String),
        loadInfo lib net n s log = .done r → loadInfo lib net (n + 1) s log = .done r) := by
  induction n with
  | zero =>
    refine ⟨?_, ?_, ?_⟩
    · intro α s log method srv req dec resp r h
      simp [CallJson] at h
    · intro s log r h
      simp [Refresh] at h
    · intro s log r h
      simp [loadInfo] at h
  | succ k ih =>
    obtain ⟨ihC, ihR, ihL⟩ := ih
    refine ⟨?_, ?_, ?_⟩
    · intro α s log method srv req dec resp r h
      rw [CallJson] at h ⊢
      cases hm : marshalReq lib req with
      | error e => simpa [hm] using h
      | ok b =>
        simp only [hm] at h ⊢
        by_cases hq : lib.newRequestOk method (s.Url ++ service ++ srv) = false
        · simp [hq] at h
        · simp only [hq, if_false] at h ⊢
          cases hn : net log (mkRequest s method srv b) with
          | failure e => simpa [hn] using h
          | http code st body =>
            simp only [hn] at h ⊢
            by_cases hc : code = 401
            · simp only [hc, if_true] at h ⊢
              cases hr : Refresh lib net k s (log ++ [mkRequest s method srv b]) with
              | done x =>
                rw [hr] at h
                rw [ihR _ _ _ hr]
                exact h
              | panic => simp [hr] at h
              | outOfFuel l => simp [hr] at h
            · simpa [hc] using h
    · intro s log r h
      rw [Refresh] at h ⊢
      by_cases he : s.RefreshToken = ""
      · simpa [he] using h
      · simp only [he, if_false] at h ⊢
        cases hc : CallJson lib net k AuthResponse s log "POST" " /oauth2/token"
            (some (.refresh ⟨"refresh_token", s.RefreshToken, "sugar", ""⟩))
            lib.unmarshalAuth AuthResponse.zero with
        | done x =>
          rw [hc] at h
          rw [ihC _ _ _ _ _ _ _ _ _ hc]
          obtain ⟨s1, log1, res, e⟩ := x
          cases e with
          | some e => exact h
          | none => exact ihL _ _ _ h
        | panic => simp [hc] at h
        | outOfFuel l => simp [hc] at h
    · intro s log r h
      rw [loadInfo] at h ⊢
      cases hc : CallJson lib net k JObject s log "GET" "/me" none lib.unmarshalMap [] with
      | done x =>
        rw [hc] at h
        rw [ihC _ _ _ _ _ _ _ _ _ hc]
        obtain ⟨s1, log1, resp, e⟩ := x
        cases e with
        | some e => exact h
        | none =>
          dsimp only at h ⊢
          split
          · rename_i cu hcu
            rw [hcu] at h
            dsimp only at h
            split
            · rename_i info e hinfo
              rw [hinfo] at h
              exact h
            · rename_i info hinfo
              rw [hinfo] at h
              dsimp only at h
              cases hc2 : CallJson lib net k JObject { s1 with Info := info } log1 "GET"
                  "/me/preferences" none lib.unmarshalMap cu with
              | done y =>
                rw [hc2] at h
                rw [ihC _ _ _ _ _ _ _ _ _ hc2]
                exact h
              | panic => simp [hc2] at h
              | outOfFuel l => simp [hc2] at h
          · rename_i hno
            split at h
            · rename_i cu hcu
              exact absurd hcu (hno cu)
            · exact h
      | panic => simp [hc] at h
      | outOfFuel l => simp [hc] at h

/-! ## Facts about the sample environment -/

theorem sampleServer_paired (log : Log) (rq : Request) (st body : String)
    (res : AuthResponse) (h : sampleServer log rq = .http 200 st body)
    (hd : sampleLib.unmarshalAuth body AuthResponse.zero = (res, none)) :
    (res.AccessToken = "" ∧ res.RefreshToken = "") ∨
      (res.AccessToken ≠ "" ∧ res.RefreshToken ≠ "") := by
  have hbody : body = tokenDoc ∨ body = meDoc ∨ body = prefsDoc := by
    unfold sampleServer serverWith at h
    split_ifs at h <;> simp at h <;> simp [← h.2]
  have hres : res = (sampleLib.unmarshalAuth body AuthResponse.zero).1 := by rw [hd]
  rcases hbody with rfl | rfl | rfl
  · right
    rw [hres]
    exact ⟨by decide, by decide⟩
  · left
    rw [hres]
    exact ⟨by decide, by decide⟩
  · left
    rw [hres]
    exact ⟨by decide, by decide⟩

theorem decodeStringField_idem (v : Option Json) (old : String) :
    (decodeStringField v (decodeStringField v old).1).1 = (decodeStringField v old).1 := by
  cases v with
  | none => rfl
  | some j => cases j <;> rfl

theorem decodeStringsField_tail (v : Option Json) (old t : List String) :
    (decodeStringsField v ((decodeStringsField v old).1 ++ t)).1 =
      (decodeStringsField v old).1 ++ t := by
  cases v with
  | none => rfl
  | some j =>
    cases j with
    | array xs => cases h : jsonStrings xs <;> simp [decodeStringsField, h]
    | _ => rfl

/-- The sample decoders are stable under repetition. -/
theorem sampleLib_stable : DecodeStable sampleLib := by
  intro cu prefs x t
  have h0 := decodeStringsField_tail (cu.lookup "module_list") x.ModuleList []
  simp only [List.append_nil] at h0
  constructor
  · simp only [decodeBoth, sampleLib, sampleWeakDecodeInfo, sampleWeakDecodePrefs,
      decodeStringField_idem, h0]
  · left
    simp only [decodeBoth, sampleLib, sampleWeakDecodeInfo, sampleWeakDecodePrefs,
      decodeStringField_idem, decodeStringsField_tail]

/-! ## RunQuery -/

/-- C1. When the module of the query is not an element of the loaded module
list, `RunQuery` returns the nil result with the error that names the module,
dispatches no request and returns the session as it was, whatever the fuel. -/
theorem RunQuery_unknown_module (lib : Lib) (net : Transport) (fuel : Nat) (s : Session)
    (log : Log) (q : Query) (h : q.Module ∉ s.Info.ModuleList) :
    RunQuery lib net fuel s log q =
      .done (s, log, Json.null,
        some ("Module " ++ q.Module ++ " is not available for quering")) := by
  have hs : sanityModule s q.Module = false := by
    rw [← Bool.not_eq_true, sanityModule_iff]
    exact h
  simp [RunQuery, hs]

theorem RunQuery_unknown_module_witness :
    "accounts" ∉ (sampleInfo "UTC").ModuleList ∧
    RunQuery sampleLib sampleServer 0
        { liveSession with Info := sampleInfo "UTC" } [] ⟨"accounts", "GET", .null⟩ =
      .done ({ liveSession with Info := sampleInfo "UTC" }, [], Json.null,
        some "Module accounts is not available for quering") :=
  ⟨by decide, RunQuery_unknown_module sampleLib sampleServer 0
    { liveSession with Info := sampleInfo "UTC" } [] ⟨"accounts", "GET", .null⟩ (by decide)⟩

/-! ## Connect and the module list -/

/-- C2. When `Connect` returns without error, the module list contains
"Users": it is the module list that `WeakDecode` left in the info after
decoding the `current_user` object of the `/me` response, unchanged when that
list contains "Users" and with one "Users" appended at the end otherwise. -/
theorem Connect_ok_module_list (lib : Lib) (net : Transport) (fuel : Nat) (s : Session)
    (log : Log) (username password : String) (s' : Session) (log' : Log)
    (h : Connect lib net fuel s log username password = .done (s', log', none)) :
    "Users" ∈ s'.Info.ModuleList ∧
    ∃ b st body m cu info,
      lib.marshal (.auth ⟨"password", "sugar", "", username, password, "base"⟩) = .ok b ∧
      net (log ++ [mkRequest s "POST" "/oauth2/token" b]) (mkRequest s' "GET" "/me" "") =
        .http 200 st body ∧
      lib.unmarshalMap body [] = (m, none) ∧
      m.lookup "current_user" = some (.object cu) ∧
      lib.weakDecodeInfo cu s.Info = (info, none) ∧
      s'.Info.ModuleList =
        if "Users" ∈ info.ModuleList then info.ModuleList else info.ModuleList ++ ["Users"] := by
  unfold Connect at h
  split at h
  · simp at h
  · rename_i s1 log1 res hc
    obtain ⟨b, st0, body0, hb, hnet0, rfl, rfl, hdec0⟩ := CallJson_ok hc
    obtain ⟨st1, body1, m, cu, info, st2, body2, prefs, p, hnet1, hdec1, hcu, hinfo, -, -, -,
      -, rfl⟩ := loadInfo_ok h
    refine ⟨?_, b, st1, body1, m, cu, info, hb, hnet1, hdec1, hcu, hinfo, rfl⟩
    show "Users" ∈ (if "Users" ∈ info.ModuleList then info.ModuleList
      else info.ModuleList ++ ["Users"])
    split
    · assumption
    · simp
  · simp at h
  · simp at h

theorem Connect_ok_module_list_witness :
    Connect sampleLib sampleServer 2 (NewSession sampleUrl) [] "sally" "secret" =
      .done ({ liveSession with Info := sampleInfo "UTC" },
        [grantRequest (NewSession sampleUrl) "secret", getRequest "/me" "tok1",
          getRequest "/me/preferences" "tok1"], none) ∧
    "Users" ∈ (sampleInfo "UTC").ModuleList :=
  ⟨rfl, (Connect_ok_module_list sampleLib sampleServer 2 (NewSession sampleUrl) []
    "sally" "secret" { liveSession with Info := sampleInfo "UTC" } _ rfl).1⟩

/-! ## The 401 path of CallJson -/

/-- C3 on a server that answers every request with 401, for a session that
holds a refresh token: whatever the fuel, `CallJson` does not return; by the
time the fuel is used up it has dispatched one request for every two units
of fuel, so the number of refresh requests of the one call has no bound. -/
theorem CallJson_401_unbounded (fuel : Nat) (α : Type) (log : Log) (method srv : String)
    (req : Option ReqObj) (dec : String → α → α × Option String) (resp : α) :
    ∃ log', CallJson sampleLib alwaysUnauthorized fuel α liveSession log method srv req
        dec resp = .outOfFuel log' ∧
      log'.length = log.length + (fuel + 1) / 2 := by
  induction fuel using Nat.strong_induction_on generalizing α log method srv req dec resp with
  | _ fuel ih =>
    match fuel with
    | 0 => exact ⟨log, rfl, rfl⟩
    | 1 =>
      obtain ⟨b, hb⟩ : ∃ b, marshalReq sampleLib req = .ok b := by
        cases req with
        | none => exact ⟨_, rfl⟩
        | some r => cases r <;> exact ⟨_, rfl⟩
      refine ⟨log ++ [mkRequest liveSession method srv b], ?_, by simp⟩
      rw [CallJson_dispatch sampleLib alwaysUnauthorized 0 liveSession log method srv req dec
        resp b hb rfl]
      rfl
    | n + 2 =>
      obtain ⟨b, hb⟩ : ∃ b, marshalReq sampleLib req = .ok b := by
        cases req with
        | none => exact ⟨_, rfl⟩
        | some r => cases r <;> exact ⟨_, rfl⟩
      obtain ⟨log', h1, h2⟩ := ih n (by omega) AuthResponse
        (log ++ [mkRequest liveSession method srv b]) "POST" " /oauth2/token"
        (some (.refresh ⟨"refresh_token", liveSession.RefreshToken, "sugar", ""⟩))
        sampleLib.unmarshalAuth AuthResponse.zero
      refine ⟨log', ?_, ?_⟩
      · rw [CallJson_dispatch sampleLib alwaysUnauthorized (n + 1) liveSession log method srv
          req dec resp b hb rfl]
        have href : Refresh sampleLib alwaysUnauthorized (n + 1) liveSession
            (log ++ [mkRequest liveSession method srv b]) = .outOfFuel log' := by
          rw [Refresh, if_neg (by decide), h1]
        simp [alwaysUnauthorized] at href ⊢
        rw [href]
      · rw [h2]
        simp
        omega

/-- C6. When the response to a call has status 401 and the `Refresh` it
triggers succeeds, `CallJson` returns the session that holds the token pair
decoded from the refresh grant's response, has dispatched four requests (the
original one, the refresh grant, `/me` and `/me/preferences`: the original
one is not sent again), leaves the out-value as it was, and returns the error
"non OK response: " with the status line and body of the 401 response. -/
theorem CallJson_401_refreshed {α : Type} (lib : Lib) (net : Transport) (fuel : Nat)
    (s : Session) (log : Log) (method srv : String) (req : Option ReqObj)
    (dec : String → α → α × Option String) (resp : α) (b status body : String)
    (s' : Session) (log' : Log)
    (hm : marshalReq lib req = .ok b)
    (hreq : lib.newRequestOk method (s.Url ++ service ++ srv) = true)
    (hnet : net log (mkRequest s method srv b) = .http 401 status body)
    (href : Refresh lib net fuel s (log ++ [mkRequest s method srv b]) =
      .done (s', log', none)) :
    CallJson lib net (fuel + 1) α s log method srv req dec resp =
      .done (s', log', resp, some ("non OK response: " ++ status ++ "\nBody: " ++ body)) ∧
    ∃ b' st bd res,
      lib.marshal (.refresh ⟨"refresh_token", s.RefreshToken, "sugar", ""⟩) = .ok b' ∧
      net (log ++ [mkRequest s method srv b]) (mkRequest s "POST" " /oauth2/token" b') =
        .http 200 st bd ∧
      lib.unmarshalAuth bd AuthResponse.zero = (res, none) ∧
      s'.AccessToken = res.AccessToken ∧ s'.RefreshToken = res.RefreshToken ∧
      log' = log ++ [mkRequest s method srv b, mkRequest s "POST" " /oauth2/token" b',
        mkRequest s' "GET" "/me" "", mkRequest s' "GET" "/me/preferences" ""] := by
  constructor
  · rw [CallJson_dispatch lib net fuel s log method srv req dec resp b hm hreq, hnet]
    simp [href, CallJson.finish]
  · obtain ⟨-, n, b', st, bd, res, -, hb', hnet', hdec', hload⟩ := Refresh_ok href
    obtain ⟨st1, body1, m, cu, info, st2, body2, prefs, p, -, -, -, -, -, -, -, hlog, rfl⟩ :=
      loadInfo_ok hload
    refine ⟨b', st, bd, res, hb', hnet', hdec', rfl, rfl, ?_⟩
    rw [hlog]
    simp
    exact ⟨rfl, rfl⟩

theorem CallJson_401_refreshed_witness :
    CallJson sampleLib expiredOnceServer 4 Json liveSession [] "GET" "/Accounts/filter"
        (some (.query ⟨"Accounts", "GET", .null⟩)) sampleLib.unmarshalAny Json.null =
      .done (⟨"tok2", "ref2", sampleUrl, sampleInfo "UTC"⟩,
        [mkRequest liveSession "GET" "/Accounts/filter" (queryJson ⟨"Accounts", "GET", .null⟩),
          refreshRequest, getRequest "/me" "tok2", getRequest "/me/preferences" "tok2"],
        Json.null, some "non OK response: 401 Unauthorized\nBody: ") :=
  (CallJson_401_refreshed sampleLib expiredOnceServer 3 liveSession [] "GET"
    "/Accounts/filter" (some (.query ⟨"Accounts", "GET", .null⟩)) sampleLib.unmarshalAny
    Json.null (queryJson ⟨"Accounts", "GET", .null⟩) "401 Unauthorized" ""
    ⟨"tok2", "ref2", sampleUrl, sampleInfo "UTC"⟩ _ rfl rfl rfl rfl).1

/-! ## Errors of Refresh -/

/-- C4, as the code has it.  When `Refresh` returns an error, then either no
refresh token was stored (the session is returned as it was and no request
was dispatched), or both tokens are empty, or the refresh grant itself
succeeded and the error is the one of the `loadInfo` that followed. -/
theorem Refresh_error_tokens (lib : Lib) (net : Transport) (fuel : Nat) (s : Session)
    (log : Log) (s' : Session) (log' : Log) (e : String)
    (h : Refresh lib net fuel s log = .done (s', log', some e)) :
    (s.RefreshToken = "" ∧ s' = s ∧ log' = log ∧ e = "No refresh token available") ∨
    (s'.AccessToken = "" ∧ s'.RefreshToken = "") ∨
    (∃ n s1 log1 res, fuel = n + 1 ∧
      CallJson lib net n AuthResponse s log "POST" " /oauth2/token"
        (some (.refresh ⟨"refresh_token", s.RefreshToken, "sugar", ""⟩))
        lib.unmarshalAuth AuthResponse.zero = .done (s1, log1, res, none) ∧
      loadInfo lib net n
        { s1 with AccessToken := res.AccessToken, RefreshToken := res.RefreshToken } log1 =
        .done (s', log', some e)) := by
  cases fuel with
  | zero => simp [Refresh] at h
  | succ n =>
    rw [Refresh] at h
    split at h
    · rename_i he
      simp at h
      exact Or.inl ⟨he, h.1.symm, h.2.1.symm, h.2.2.symm⟩
    · split at h
      · simp at h
        refine Or.inr (Or.inl ?_)
        rw [← h.1]
        exact ⟨rfl, rfl⟩
      · rename_i s1 log1 res hc
        exact Or.inr (Or.inr ⟨n, s1, log1, res, rfl, hc, h⟩)
      · simp at h
      · simp at h

theorem Refresh_error_tokens_witness :
    Refresh sampleLib downServer 2 liveSession [] =
      .done (⟨"", "", sampleUrl, SessionInfo.zero⟩, [refreshRequest],
        some "connection refused") ∧
    ((liveSession.RefreshToken = "" ∧
        (⟨"", "", sampleUrl, SessionInfo.zero⟩ : Session) = liveSession ∧
        [refreshRequest] = ([] : Log) ∧
        "connection refused" = "No refresh token available") ∨
      ((⟨"", "", sampleUrl, SessionInfo.zero⟩ : Session).AccessToken = "" ∧
        (⟨"", "", sampleUrl, SessionInfo.zero⟩ : Session).RefreshToken = "") ∨
      (∃ n s1 log1 res, 2 = n + 1 ∧
        CallJson sampleLib downServer n AuthResponse liveSession [] "POST" " /oauth2/token"
          (some (.refresh ⟨"refresh_token", liveSession.RefreshToken, "sugar", ""⟩))
          sampleLib.unmarshalAuth AuthResponse.zero = .done (s1, log1, res, none) ∧
        loadInfo sampleLib downServer n
          { s1 with AccessToken := res.AccessToken, RefreshToken := res.RefreshToken } log1 =
          .done (⟨"", "", sampleUrl, SessionInfo.zero⟩, [refreshRequest],
            some "connection refused"))) :=
  ⟨rfl, Refresh_error_tokens sampleLib downServer 2 liveSession []
    ⟨"", "", sampleUrl, SessionInfo.zero⟩ [refreshRequest] "connection refused" rfl⟩

/-- C4 fails as stated: the refresh grant succeeds, the `/me` request that
follows is answered with 500, and `Refresh` returns that error with the newly
granted token pair in the session. -/
theorem Refresh_error_keeps_tokens :
    Refresh sampleLib grantOnlyServer 3 liveSession [] =
      .done (⟨"tok2", "ref2", sampleUrl, SessionInfo.zero⟩,
        [refreshRequest, getRequest "/me" "tok2"],
        some "non OK response: 500 Internal Server Error\nBody: ") ∧
    (⟨"tok2", "ref2", sampleUrl, SessionInfo.zero⟩ : Session).AccessToken ≠ "" ∧
    (⟨"tok2", "ref2", sampleUrl, SessionInfo.zero⟩ : Session).RefreshToken ≠ "" :=
  ⟨rfl, by decide, by decide⟩

/-- C8 on the sample session, with the server unreachable: the one request
`Refresh` dispatches goes to the URL with a blank before `/oauth2/token`,
the one request `Connect` dispatches goes to the URL without it, and the
former is not `Url ++ "/rest/v10" ++ "/oauth2/token"`. -/
theorem Refresh_url_differs :
    Refresh sampleLib downServer 2 liveSession [] =
      .done (⟨"", "", sampleUrl, SessionInfo.zero⟩,
        [{ Method := "POST", Url := "https://crm.example/rest/v10 /oauth2/token",
           Header := [("Content-Type", "application/json"), ("oauth-token", "tok1")],
           Body := refreshJson ⟨"refresh_token", "ref1", "sugar", ""⟩ }],
        some "connection refused") ∧
    Connect sampleLib downServer 2 liveSession [] "sally" "secret" =
      .done (liveSession,
        [{ Method := "POST", Url := "https://crm.example/rest/v10/oauth2/token",
           Header := [("Content-Type", "application/json"), ("oauth-token", "tok1")],
           Body := authJson ⟨"password", "sugar", "", "sally", "secret", "base"⟩ }],
        some "connection refused") ∧
    "https://crm.example/rest/v10 /oauth2/token" ≠
      liveSession.Url ++ "/rest/v10" ++ "/oauth2/token" :=
  ⟨rfl, rfl, by decide⟩

/-! ## Failure of the password grant -/

/-- C5, as the code has it.  When the password-grant request is answered by
a transport failure, by a status other than 200, or by 200 with a body that
does not decode, and the status is not 401 or the session holds no refresh
token, `Connect` returns an error and the session (both tokens included) is
as it was before the call; one request was dispatched. -/
theorem Connect_failure_keeps_session (lib : Lib) (net : Transport) (fuel : Nat)
    (s : Session) (log : Log) (username password b : String)
    (hm : lib.marshal (.auth ⟨"password", "sugar", "", username, password, "base"⟩) = .ok b)
    (hreq : lib.newRequestOk "POST" (s.Url ++ service ++ "/oauth2/token") = true)
    (hfail : (∃ e, net log (mkRequest s "POST" "/oauth2/token" b) = .failure e) ∨
      (∃ code st bd, net log (mkRequest s "POST" "/oauth2/token" b) = .http code st bd ∧
        code ≠ 200 ∧ (code = 401 → s.RefreshToken = "")) ∨
      (∃ st bd, net log (mkRequest s "POST" "/oauth2/token" b) = .http 200 st bd ∧
        (lib.unmarshalAuth bd AuthResponse.zero).2 ≠ none)) :
    ∃ e, Connect lib net (fuel + 2) s log username password =
      .done (s, log ++ [mkRequest s "POST" "/oauth2/token" b], some e) := by
  unfold Connect
  rw [CallJson_dispatch lib net (fuel + 1) s log "POST" "/oauth2/token"
    (some (.auth ⟨"password", "sugar", "", username, password, "base"⟩)) lib.unmarshalAuth
    AuthResponse.zero b hm hreq]
  rcases hfail with ⟨e, he⟩ | ⟨code, st, bd, he, h200, h401⟩ | ⟨st, bd, he, hdec⟩
  · rw [he]
    exact ⟨e, rfl⟩
  · rw [he]
    by_cases hc : code = 401
    · have hr := h401 hc
      simp [hc, Refresh, hr]
    · simp [hc, CallJson.finish, h200]
  · rw [he]
    cases hd : (lib.unmarshalAuth bd AuthResponse.zero).2 with
    | none => exact absurd hd hdec
    | some e => simp [CallJson.finish, hd]

theorem Connect_failure_keeps_session_witness :
    ∃ e, Connect sampleLib alwaysUnauthorized 2 (NewSession sampleUrl) [] "sally" "wrong" =
      .done (NewSession sampleUrl,
        [] ++ [mkRequest (NewSession sampleUrl) "POST" "/oauth2/token"
          (authJson ⟨"password", "sugar", "", "sally", "wrong", "base"⟩)], some e) :=
  Connect_failure_keeps_session sampleLib alwaysUnauthorized 0 (NewSession sampleUrl) []
    "sally" "wrong" (authJson ⟨"password", "sugar", "", "sally", "wrong", "base"⟩) rfl rfl
    (Or.inr (Or.inl ⟨401, "401 Unauthorized", "", rfl, by decide, fun _ => rfl⟩))

/-- C5 fails as stated: the session holds the pair ("tok1", "ref1"), the
password grant is answered with 401, the refresh that `CallJson` then
attempts fails, and `Connect` returns with both tokens empty. -/
theorem Connect_401_clears_tokens :
    Connect sampleLib unauthorizedThenDown 3 liveSession [] "sally" "wrong" =
      .done (⟨"", "", sampleUrl, SessionInfo.zero⟩,
        [grantRequest liveSession "wrong", refreshRequest],
        some "non OK response: 401 Unauthorized") ∧
    liveSession.AccessToken = "tok1" ∧ liveSession.RefreshToken = "ref1" :=
  ⟨rfl, rfl, rfl⟩

/-! ## Pairing of the tokens -/

/-- C7, as the code has it.  When every 200 response that decodes as a token
response carries a token pair that is both empty or both non-empty, every
session state a client reaches from `NewSession` through `Connect`,
`Refresh`, `CallJson` and `RunQuery` has its two tokens both empty or both
non-empty. -/
theorem reachable_tokensPaired (lib : Lib) (net : Transport)
    (hbal : ∀ log rq st body res, net log rq = .http 200 st body →
      lib.unmarshalAuth body AuthResponse.zero = (res, none) →
      (res.AccessToken = "" ∧ res.RefreshToken = "") ∨
        (res.AccessToken ≠ "" ∧ res.RefreshToken ≠ ""))
    (s : Session) (log : Log) (hr : Reachable lib net s log) : TokensPaired s := by
  induction hr with
  | newSession urlStr => exact Or.inl ⟨rfl, rfl⟩
  | connect fuel username password _ h ih =>
    unfold Connect at h
    split at h
    · rename_i hc
      simp at h
      rw [← h.1]
      exact (tokensPaired_step lib net hbal fuel).1 _ _ _ _ _ _ _ _ _ _ _ _ ih hc
    · rename_i s1 log1 res hc
      obtain ⟨b, st, body, -, hnet, rfl, rfl, hdec⟩ := CallJson_ok hc
      exact (tokensPaired_step lib net hbal fuel).2.2
        { s1 with AccessToken := res.AccessToken, RefreshToken := res.RefreshToken }
        _ _ _ _ (hbal _ _ _ _ _ hnet hdec) h
    · simp at h
    · simp at h
  | refresh fuel _ h ih => exact (tokensPaired_step lib net hbal fuel).2.1 _ _ _ _ _ ih h
  | callJson fuel method srv req dec resp _ h ih =>
    exact (tokensPaired_step lib net hbal fuel).1 _ _ _ _ _ _ _ _ _ _ _ _ ih h
  | runQuery fuel q _ h ih =>
    unfold RunQuery at h
    split at h
    · split at h
      · rename_i hc
        simp at h
        rw [← h.1]
        exact (tokensPaired_step lib net hbal fuel).1 _ _ _ _ _ _ _ _ _ _ _ _ ih hc
      · rename_i hc
        simp at h
        rw [← h.1]
        exact (tokensPaired_step lib net hbal fuel).1 _ _ _ _ _ _ _ _ _ _ _ _ ih hc
      · simp at h
      · simp at h
    · simp at h
      rw [← h.1]
      exact ih

theorem reachable_tokensPaired_witness :
    TokensPaired { liveSession with Info := sampleInfo "UTC" } :=
  reachable_tokensPaired sampleLib sampleServer sampleServer_paired
    { liveSession with Info := sampleInfo "UTC" }
    [grantRequest (NewSession sampleUrl) "secret", getRequest "/me" "tok1",
      getRequest "/me/preferences" "tok1"]
    (Reachable.connect 2 "sally" "secret" (Reachable.newSession sampleUrl) rfl)

/-- C7 fails as stated: the server grants an access token without a refresh
token, `Connect` succeeds, and the session it leaves has a non-empty
`AccessToken` and an empty `RefreshToken`. -/
theorem Connect_unpaired_tokens :
    Connect sampleLib (serverWith accessOnlyDoc meDoc) 2 (NewSession sampleUrl) []
        "sally" "secret" =
      .done (⟨"tok1", "", sampleUrl, sampleInfo "UTC"⟩,
        [grantRequest (NewSession sampleUrl) "secret", getRequest "/me" "tok1",
          getRequest "/me/preferences" "tok1"], none) ∧
    Reachable sampleLib (serverWith accessOnlyDoc meDoc)
      ⟨"tok1", "", sampleUrl, sampleInfo "UTC"⟩
      [grantRequest (NewSession sampleUrl) "secret", getRequest "/me" "tok1",
        getRequest "/me/preferences" "tok1"] ∧
    ¬ TokensPaired ⟨"tok1", "", sampleUrl, sampleInfo "UTC"⟩ :=
  ⟨rfl, Reachable.connect 2 "sally" "secret" (Reachable.newSession sampleUrl) rfl,
    by unfold TokensPaired; decide⟩

/-! ## Repeating loadInfo, for decoders that are stable under repetition -/

/-- What the guard before the append contributes to a repeated `loadInfo`.
The outcome of a second run is decided by what the two `WeakDecode` calls do
to an info that is already populated, which `session.go` does not fix.  For
decoders that are stable under repetition (`DecodeStable`) the second run,
on the same two payloads, leaves the info of the first run: the guard keeps
it from appending "Users" again. -/
theorem loadInfo_repeat_of_stable (lib : Lib) (net : Transport) (fuel fuel' : Nat)
    (s : Session) (log : Log) (s1 : Session) (log1 : Log) (s2 : Session) (log2 : Log)
    (hst : DecodeStable lib)
    (h1 : loadInfo lib net fuel s log = .done (s1, log1, none))
    (h2 : loadInfo lib net fuel' s1 log1 = .done (s2, log2, none))
    (hme : (net log1 (mkRequest s1 "GET" "/me" "")).payload =
      (net log (mkRequest s "GET" "/me" "")).payload)
    (hpr : (net (log1 ++ [mkRequest s1 "GET" "/me" ""])
        (mkRequest s1 "GET" "/me/preferences" "")).payload =
      (net (log ++ [mkRequest s "GET" "/me" ""])
        (mkRequest s "GET" "/me/preferences" "")).payload) :
    s2.Info = s1.Info ∧ s2.Info.ModuleList.count "Users" = s1.Info.ModuleList.count "Users" := by
  obtain ⟨st1, body1, m, cu, info, st2, body2, prefs, p, hnet1, hdec1, hcu, hinfo, hnet2,
    hdec2, hp, -, hs1⟩ := loadInfo_ok h1
  obtain ⟨st1', body1', m', cu', info', st2', body2', prefs', p', hnet1', hdec1', hcu',
    hinfo', hnet2', hdec2', hp', -, hs2⟩ := loadInfo_ok h2
  rw [hnet1, hnet1'] at hme
  rw [hnet2, hnet2'] at hpr
  simp only [Response.payload, Option.some.injEq] at hme hpr
  subst hme hpr
  rw [hdec1] at hdec1'
  obtain rfl : m = m' := (Prod.mk.inj hdec1').1
  rw [hcu] at hcu'
  obtain rfl : cu = cu' := Json.object.inj (Option.some.inj hcu')
  rw [hdec2] at hdec2'
  obtain rfl : prefs = prefs' := (Prod.mk.inj hdec2').1
  have hy : decodeBoth lib cu prefs s.Info = { info with UserPreferences := p } := by
    simp [decodeBoth, hinfo, hp]
  have hy' : decodeBoth lib cu prefs s1.Info = { info' with UserPreferences := p' } := by
    simp [decodeBoth, hinfo', hp']
  have e1 : s1.Info = withUsers (decodeBoth lib cu prefs s.Info) := by
    rw [hy, hs1]
    rfl
  have e2 : s2.Info = withUsers (decodeBoth lib cu prefs s1.Info) := by
    rw [hy', hs2]
    rfl
  have key : s2.Info = s1.Info := by
    rw [e2, e1]
    exact withUsers_absorb (decodeBoth lib cu prefs) _ (hst cu prefs s.Info ["Users"]).1
      (hst cu prefs s.Info ["Users"]).2
  exact ⟨key, by rw [key]⟩

/-- The sample run of `loadInfo_repeat_of_stable`: `loadInfo` twice on the
sample server. -/
theorem loadInfo_repeat_sample :
    loadInfo sampleLib sampleServer 2 liveSession [] =
      .done ({ liveSession with Info := sampleInfo "UTC" },
        [getRequest "/me" "tok1", getRequest "/me/preferences" "tok1"], none) ∧
    loadInfo sampleLib sampleServer 2 { liveSession with Info := sampleInfo "UTC" }
        [getRequest "/me" "tok1", getRequest "/me/preferences" "tok1"] =
      .done ({ liveSession with Info := sampleInfo "UTC" },
        [getRequest "/me" "tok1", getRequest "/me/preferences" "tok1",
          getRequest "/me" "tok1", getRequest "/me/preferences" "tok1"], none) ∧
    (sampleInfo "UTC").ModuleList.count "Users" = (sampleInfo "UTC").ModuleList.count "Users" :=
  ⟨rfl, rfl,
    (loadInfo_repeat_of_stable sampleLib sampleServer 2 2 liveSession []
      { liveSession with Info := sampleInfo "UTC" }
      [getRequest "/me" "tok1", getRequest "/me/preferences" "tok1"]
      { liveSession with Info := sampleInfo "UTC" }
      [getRequest "/me" "tok1", getRequest "/me/preferences" "tok1",
        getRequest "/me" "tok1", getRequest "/me/preferences" "tok1"]
      sampleLib_stable rfl rfl rfl rfl).2⟩

/-! ## The map decoded into UserPreferences -/

/-- C10 on the sample documents: two `/me` responses that differ in a
`timezone` member of `current_user`, the same `/me/preferences` response
(which has no `timezone` member), and `loadInfo` on a fresh session ends
with different `UserPreferences`: the time zone of `current_user`. -/
theorem loadInfo_prefs_leak :
    loadInfo sampleLib (serverWith tokenDoc meDoc) 2 (NewSession sampleUrl) [] =
      .done ({ NewSession sampleUrl with Info := sampleInfo "UTC" },
        [mkRequest (NewSession sampleUrl) "GET" "/me" "",
          mkRequest (NewSession sampleUrl) "GET" "/me/preferences" ""], none) ∧
    loadInfo sampleLib (serverWith tokenDoc meDocParis) 2 (NewSession sampleUrl) [] =
      .done ({ NewSession sampleUrl with Info := sampleInfo "Europe/Paris" },
        [mkRequest (NewSession sampleUrl) "GET" "/me" "",
          mkRequest (NewSession sampleUrl) "GET" "/me/preferences" ""], none) ∧
    (sampleInfo "UTC").UserPreferences.Timezone = "UTC" ∧
    (sampleInfo "Europe/Paris").UserPreferences.Timezone = "Europe/Paris" ∧
    (sampleInfo "UTC").UserPreferences ≠ (sampleInfo "Europe/Paris").UserPreferences :=
  ⟨rfl, rfl, rfl, rfl, fun h =>
    absurd (congrArg SessionUserPreferences.Timezone h) (by decide)⟩

end Gosugar
